import Mathlib

/-!
Verification of the drum-trainer real-time session client.

Shallow embedding of the repository's frontend core:
  * src/frontend/src/types.ts    — the wire data model,
  * src/frontend/src/store.ts    — the zustand SessionStore (state + actions),
  * src/frontend/src/App.tsx     — input handlers, metronome control and
    feedback-derivation code (the hit-history rendering computations).

JavaScript numbers are modelled as rationals (ℚ) where fractional values
occur (timestamps, scores, audio parameters) and as Nat/Int where the code
only ever holds integers (slot indices, MIDI notes, tempi).  Store actions
are modelled as pure state transformers; `disconnectWebSocket` additionally
emits its channel close event so ordering is visible, and the channel
lifecycle as a whole — sockets mid-handshake, the asynchronous
`onopen`/`onclose` callbacks that alone commit `ws`/`isConnected` — is a
step relation on an explicit world state (`ChannelWorld`/`clientStep`).
-/

/-- Rolling score triple pushed by the server with each hit feedback
(types.ts, `HitFeedback.rolling`). -/
structure Rolling where
  timing : ℚ
  dynamics : ℚ
  diamond : ℚ
deriving DecidableEq

/-- Inbound per-hit feedback message (types.ts, `HitFeedback`). -/
structure HitFeedback where
  slot_idx : Nat
  delta_ms : ℚ
  velocity : Option Nat
  velocity_target : Option Nat
  timing_score : ℚ
  dyn_score : ℚ
  rolling : Rolling
deriving DecidableEq

/-- `input_type` of a session (types.ts). -/
inductive InputType where
  | midi
  | audio
deriving DecidableEq

/-- `status` of a session (types.ts). -/
inductive SessionStatus where
  | active
  | completed
deriving DecidableEq

/-- A created session as returned by `POST /api/v1/session` (types.ts,
`Session`; the optional fields not read by the store are omitted). -/
structure Session where
  id : String
  drill_id : String
  input_type : InputType
  status : SessionStatus
deriving DecidableEq

/-- A drill of the catalog (types.ts, `Drill`; the fields the session client
reads). -/
structure Drill where
  id : String
  name : String
  tempo_bpm : Int
  subdivision : Nat
  beats_per_bar : Nat
  bars : Nat
deriving DecidableEq

/-- Browser WebSocket readyState values. -/
inductive WSReadyState where
  | CONNECTING
  | OPEN
  | CLOSING
  | CLOSED
deriving DecidableEq

/-- The WebSocket object held in the store's `ws` field: a channel handle
with its readyState. -/
structure WS where
  chanId : Nat
  readyState : WSReadyState
deriving DecidableEq

/-- The zustand store state (store.ts, `DrumTrainerState`; the MIDI access
handles, opaque to the store, are omitted). -/
structure StoreState where
  drills : List Drill
  selectedDrill : Option Drill
  currentSession : Option Session
  sessionId : Option String
  ws : Option WS
  isConnected : Bool
  hitHistory : List HitFeedback
  currentRolling : Option Rolling
  isCountdownActive : Bool
deriving DecidableEq

/-- The store's initial state (store.ts, the literal passed to `create`). -/
def initialStoreState : StoreState where
  drills := []
  selectedDrill := none
  currentSession := none
  sessionId := none
  ws := none
  isConnected := false
  hitHistory := []
  currentRolling := none
  isCountdownActive := false

/-- The outcome of the `fetch` inside `createSession`: a network fault, or an
HTTP response with its ok flag and (when the body parses as a Session) the
parsed body. -/
inductive FetchResult where
  | netFault
  | resp (ok : Bool) (body : Option Session)
deriving DecidableEq

/-- store.ts `createSession`: on a network fault or a non-ok response the
error propagates (Except.error) and the state is returned untouched; only on
an ok response with a parsed body does the store commit
`currentSession`/`sessionId`. -/
def createSession (s : StoreState) (r : FetchResult) :
    StoreState × Except Unit Session :=
  match r with
  | FetchResult.netFault => (s, Except.error ())
  | FetchResult.resp ok body =>
      if ok then
        match body with
        | some sess =>
            ({ s with currentSession := some sess, sessionId := some sess.id },
             Except.ok sess)
        | none => (s, Except.error ())
      else (s, Except.error ())

/-- An observable channel lifecycle event: a close of an existing channel or
the opening of a new one.  connect/disconnect emit these in program order. -/
inductive ChanEvent where
  | closeEv (chanId : Nat)
  | openEv (chanId : Nat)
deriving DecidableEq

/-- store.ts `disconnectWebSocket`: `ws.close()` on the held channel if any,
then `set({ ws: null, isConnected: false })`. -/
def disconnectWebSocket (s : StoreState) : StoreState × List ChanEvent :=
  ({ s with ws := none, isConnected := false },
   match s.ws with
   | some w => [ChanEvent.closeEv w.chanId]
   | none => [])

/-- store.ts `addHitFeedback`: drop the feedback while the countdown ignore
window is active, otherwise append it to the history and replace the rolling
score wholesale. -/
def addHitFeedback (s : StoreState) (feedback : HitFeedback) : StoreState :=
  if !s.isCountdownActive then
    { s with hitHistory := s.hitHistory ++ [feedback],
             currentRolling := some feedback.rolling }
  else s

/-- store.ts `setCountdownActive`. -/
def setCountdownActive (s : StoreState) (active : Bool) : StoreState :=
  { s with isCountdownActive := active }

/-- store.ts `clearSession`: `disconnectWebSocket()` first, then reset
session, history, rolling score and countdown flag. -/
def clearSession (s : StoreState) : StoreState × List ChanEvent :=
  let p := disconnectWebSocket s
  ({ p.1 with currentSession := none, sessionId := none, hitHistory := [],
              currentRolling := none, isCountdownActive := false },
   p.2)

/-- store.ts `selectDrill`. -/
def selectDrill (s : StoreState) (drill : Drill) : StoreState :=
  { s with selectedDrill := some drill }

/-- store.ts `setDrills`. -/
def setDrills (s : StoreState) (drills : List Drill) : StoreState :=
  { s with drills := drills }

/-! ### The channel world: sockets with asynchronous open/close callbacks

store.ts does not commit a socket synchronously: `connectWebSocket` only
constructs the WebSocket (which starts its handshake in CONNECTING state) and
attaches callbacks; `set({ ws, isConnected: true })` runs in the later
`onopen` callback, and `onclose`/`onerror` run
`set({ ws: null, isConnected: false })` unconditionally.  The world below
makes that explicit: every socket ever created is tracked with its current
readyState (CLOSING is collapsed into CLOSED: `close()` makes a socket
non-open synchronously) and with whether its close/error callback is still
to be delivered, and the callbacks are separate events that interleave with
store calls. -/

/-- One WebSocket ever constructed: its identity, its current readyState,
and whether its `onclose`/`onerror` callback is still pending delivery. -/
structure Socket where
  sockId : Nat
  sockState : WSReadyState
  closeCbPending : Bool
deriving DecidableEq

/-- The store together with every socket it ever constructed. -/
structure ChannelWorld where
  store : StoreState
  sockets : List Socket
  nextId : Nat
deriving DecidableEq

/-- `ws.close()` on socket `c`: a socket that is not already closed becomes
closed (non-open at once) and its close callback becomes pending; a close on
an already-closed socket is a no-op. -/
def closeSocket (sockets : List Socket) (c : Nat) : List Socket :=
  sockets.map fun p =>
    if p.sockId = c ∧ p.sockState ≠ WSReadyState.CLOSED then
      { p with sockState := WSReadyState.CLOSED, closeCbPending := true }
    else p

/-- The handshake of socket `c` completing: its readyState becomes OPEN. -/
def setSocketOpen (sockets : List Socket) (c : Nat) : List Socket :=
  sockets.map fun p =>
    if p.sockId = c then { p with sockState := WSReadyState.OPEN } else p

/-- Delivery of socket `c`'s close callback: it is no longer pending. -/
def clearClosePending (sockets : List Socket) (c : Nat) : List Socket :=
  sockets.map fun p =>
    if p.sockId = c then { p with closeCbPending := false } else p

/-- store.ts `disconnectWebSocket` at world level: `ws.close()` on the
socket the store records (and only that one — a socket whose handshake is
still pending is not recorded and is not closed), then the synchronous
`set({ ws: null, isConnected: false })` (the store part is exactly
`disconnectWebSocket`). -/
def worldDisconnect (w : ChannelWorld) : ChannelWorld :=
  { w with
    store := (disconnectWebSocket w.store).1,
    sockets := match w.store.ws with
      | some s => closeSocket w.sockets s.chanId
      | none => w.sockets }

/-- store.ts `connectWebSocket`: first `disconnectWebSocket()`, then
`new WebSocket(...)` — a fresh socket (identity `w.nextId`; the session id
only forms its URL) is created in CONNECTING state with its callbacks
attached.  Nothing is committed to the store here: `ws`/`isConnected` are
only written by the `onopen` callback (`wsOnOpen`) and cleared by
`onclose`/`onerror` (`wsOnClose`). -/
def connectWebSocket (w : ChannelWorld) : ChannelWorld :=
  let w1 := worldDisconnect w
  { w1 with
    sockets := w1.sockets ++
      [{ sockId := w1.nextId, sockState := WSReadyState.CONNECTING,
         closeCbPending := false }],
    nextId := w1.nextId + 1 }

/-- store.ts `clearSession` at world level: the disconnect (closing the
recorded socket), then the synchronous reset of session, id, history,
rolling score and countdown flag (the store part is exactly
`clearSession`). -/
def worldClear (w : ChannelWorld) : ChannelWorld :=
  { worldDisconnect w with store := (clearSession w.store).1 }

/-- The `ws.onopen` callback of socket `c` (store.ts): deliverable only
while `c` is still CONNECTING (a socket closed during its handshake fails to
`onclose` instead of opening); it commits
`set({ ws, isConnected: true })` — unconditionally overwriting whatever the
store held. -/
def wsOnOpen (w : ChannelWorld) (c : Nat) : ChannelWorld :=
  match w.sockets.find? (fun p => p.sockId == c) with
  | some p =>
      if p.sockState = WSReadyState.CONNECTING then
        { w with
          sockets := setSocketOpen w.sockets c,
          store := { w.store with
                     ws := some ⟨c, WSReadyState.OPEN⟩,
                     isConnected := true } }
      else w
  | none => w

/-- The `ws.onclose` / `ws.onerror` callback of socket `c` (store.ts):
delivered once, some time after the socket was closed, and it runs
`set({ ws: null, isConnected: false })` unconditionally — even if the store
meanwhile recorded a different, newer socket. -/
def wsOnClose (w : ChannelWorld) (c : Nat) : ChannelWorld :=
  match w.sockets.find? (fun p => p.sockId == c) with
  | some p =>
      if p.closeCbPending then
        { w with sockets := clearClosePending w.sockets c,
                 store := { w.store with ws := none, isConnected := false } }
      else w
  | none => w

/-- One client event: a store call made by the app, or a socket callback
delivered by the transport. -/
inductive ClientEvent where
  | createResp (r : FetchResult)
  | connectCall
  | disconnectCall
  | clearCall
  | openCb (c : Nat)
  | closeCb (c : Nat)
  | hit (f : HitFeedback)
  | countdown (b : Bool)

/-- One client event applied to the world. -/
def clientStep (w : ChannelWorld) : ClientEvent → ChannelWorld
  | ClientEvent.createResp r => { w with store := (createSession w.store r).1 }
  | ClientEvent.connectCall => connectWebSocket w
  | ClientEvent.disconnectCall => worldDisconnect w
  | ClientEvent.clearCall => worldClear w
  | ClientEvent.openCb c => wsOnOpen w c
  | ClientEvent.closeCb c => wsOnClose w c
  | ClientEvent.hit f => { w with store := addHitFeedback w.store f }
  | ClientEvent.countdown b => { w with store := setCountdownActive w.store b }

/-- Run a sequence of client events. -/
def runClient (w : ChannelWorld) : List ClientEvent → ChannelWorld
  | [] => w
  | e :: rest => runClient (clientStep w e) rest

/-- The world before anything ran: the store's initial state and no socket
ever constructed. -/
def initialWorld : ChannelWorld :=
  { store := initialStoreState, sockets := [], nextId := 0 }

/-- How many channels are open right now. -/
def openCount (w : ChannelWorld) : Nat :=
  (w.sockets.filter fun p => p.sockState == WSReadyState.OPEN).length

/-- No socket is mid-handshake. -/
def quiescentHandshake (w : ChannelWorld) : Prop :=
  ∀ p ∈ w.sockets, p.sockState ≠ WSReadyState.CONNECTING

/-- No close/error callback is awaiting delivery. -/
def noPendingCloseCb (w : ChannelWorld) : Prop :=
  ∀ p ∈ w.sockets, p.closeCbPending = false

/-- The interleaving discipline under which the amended claim holds: a
connect is issued only when no handshake is pending (no superseding connect),
and a handshake completes (`onopen`) only when no close callback of an
earlier socket is still outstanding (callbacks are delivered in causal
order).  The counterexample trace violates the first condition. -/
def stepOK (w : ChannelWorld) : ClientEvent → Prop
  | ClientEvent.connectCall => quiescentHandshake w
  | ClientEvent.openCb _ => noPendingCloseCb w
  | _ => True

/-- Every event of the trace respects `stepOK` in the world it fires in. -/
def okRun : ChannelWorld → List ClientEvent → Prop
  | _, [] => True
  | w, e :: rest => stepOK w e ∧ okRun (clientStep w e) rest


/-! ### App component state and handlers (App.tsx) -/

/-- The App component's local state alongside the store fields it reads
(App.tsx `useState` hooks).  `customTempoBpm` is `number | null`. -/
structure AppState where
  store : StoreState
  isMetronomePlaying : Bool
  currentBeat : Nat
  currentSubdivision : Nat
  customTempoBpm : Option Int
  showTempoCustomization : Bool

/-- The send guard the handlers apply to the held socket:
`ws && ws.readyState === WebSocket.OPEN`. -/
def wsOpen (s : StoreState) : Bool :=
  match s.ws with
  | some w => w.readyState == WSReadyState.OPEN
  | none => false

/-- An outbound hit event (types.ts `HitEvent` as built by the handlers). -/
structure HitEvent where
  t : ℚ
  type : InputType
  note : Nat
  velocity : Nat
deriving DecidableEq

/-- The `metronome_action` discriminant of an outbound metronome control
frame (App.tsx). -/
inductive MetroAction where
  | start
  | stop
  | reset
  | update_tempo
deriving DecidableEq

/-- An outbound `metronome_control` frame (App.tsx; the `type` field is the
constant string "metronome_control" and is left implicit).
`custom_tempo_bpm` is present only on `update_tempo` frames and carries the
component's `customTempoBpm` verbatim, which may itself be null. -/
structure MetronomeControlFrame where
  t : ℚ
  metronome_action : MetroAction
  custom_tempo_bpm : Option (Option Int)
deriving DecidableEq

/-- App.tsx `keyboardMidiMap`: the fixed key-code → (note, label) table. -/
def keyboardMidiMap (code : String) : Option (Nat × String) :=
  if code = "KeyA" then some (36, "Bass Drum")
  else if code = "KeyS" then some (38, "Snare Drum")
  else if code = "KeyD" then some (42, "Closed Hi-Hat")
  else if code = "KeyF" then some (46, "Open Hi-Hat")
  else if code = "KeyG" then some (49, "Crash Cymbal")
  else if code = "KeyH" then some (51, "Ride Cymbal")
  else if code = "KeyJ" then some (45, "Tom 1")
  else if code = "KeyK" then some (47, "Tom 2")
  else if code = "KeyL" then some (48, "Tom 3")
  else if code = "Space" then some (36, "Bass Drum")
  else none

/-- App.tsx `handleKeyboardMidi`: gated on the current
`currentSession`/`isConnected`, then the key map, then the open socket; the
sent hit event (velocity fixed at 80) or `none` when nothing is sent. -/
def handleKeyboardMidi (a : AppState) (now : ℚ) (code : String) :
    Option HitEvent :=
  if a.store.currentSession.isNone || !a.store.isConnected then none
  else
    match keyboardMidiMap code with
    | none => none
    | some keyInfo =>
        if wsOpen a.store then
          some { t := now, type := InputType.midi, note := keyInfo.1, velocity := 80 }
        else none

/-- App.tsx `handleStartMetronome`: guard on session/connected, then the open
socket, then send a `start` control frame. -/
def handleStartMetronome (a : AppState) (now : ℚ) :
    Option MetronomeControlFrame :=
  if a.store.currentSession.isNone || !a.store.isConnected then none
  else if wsOpen a.store then
    some { t := now, metronome_action := MetroAction.start, custom_tempo_bpm := none }
  else none

/-- App.tsx `handleStopMetronome`. -/
def handleStopMetronome (a : AppState) (now : ℚ) :
    Option MetronomeControlFrame :=
  if a.store.currentSession.isNone || !a.store.isConnected then none
  else if wsOpen a.store then
    some { t := now, metronome_action := MetroAction.stop, custom_tempo_bpm := none }
  else none

/-- App.tsx `handleResetMetronome`. -/
def handleResetMetronome (a : AppState) (now : ℚ) :
    Option MetronomeControlFrame :=
  if a.store.currentSession.isNone || !a.store.isConnected then none
  else if wsOpen a.store then
    some { t := now, metronome_action := MetroAction.reset, custom_tempo_bpm := none }
  else none

/-- App.tsx `handleUpdateMetronomeTempo`: same guards, then an
`update_tempo` frame whose `custom_tempo_bpm` is the component state's
`customTempoBpm` verbatim (no clamping), and the tempo panel is closed. -/
def handleUpdateMetronomeTempo (a : AppState) (now : ℚ) :
    AppState × Option MetronomeControlFrame :=
  if a.store.currentSession.isNone || !a.store.isConnected then (a, none)
  else if wsOpen a.store then
    ({ a with showTempoCustomization := false },
     some { t := now, metronome_action := MetroAction.update_tempo,
            custom_tempo_bpm := some a.customTempoBpm })
  else (a, none)

/-- App.tsx, tempo input `onChange`:
`setCustomTempoBpm(isNaN(value) ? null : value)` for `value =
parseInt(e.target.value)`; `parsed` is `none` when parseInt yielded NaN.
The input element's `min="40" max="300"` attributes do not constrain the
change events a typed value produces. -/
def tempoInputChange (a : AppState) (parsed : Option Int) : AppState :=
  { a with customTempoBpm := parsed }

/-- The data bytes of a device MIDI message (`event.data`). -/
structure MIDIMessageData where
  status : Nat
  note : Nat
  velocity : Nat
deriving DecidableEq

/-- App.tsx `setupMIDI`, the `input.onmidimessage` handler.  The
session/connected gate reads the values of `isConnected`/`currentSession`
captured by the closure when the one-shot setup effect ran (the effect has an
empty dependency list and a `midiSetupRef` guard), while the socket is read
from the store at event time (`useDrumTrainerStore.getState().ws`).  Only
note-on (status 0x90) with velocity > 0 is handled. -/
def deviceMidiHandler (capturedConnected : Bool)
    (capturedSession : Option Session) (curWs : Option WS) (now : ℚ)
    (d : MIDIMessageData) : Option HitEvent :=
  if d.status = 0x90 ∧ d.velocity > 0 then
    if capturedConnected && capturedSession.isSome then
      match curWs with
      | some w =>
          if w.readyState == WSReadyState.OPEN then
            some { t := now, type := InputType.midi, note := d.note,
                   velocity := d.velocity }
          else none
      | none => none
    else none
  else none

/-! ### Metronome message handling and click synthesis (App.tsx) -/

/-- The pitch/gain envelope of one click (App.tsx `playClickSound`:
oscillator frequency in Hz and the initial gain). -/
structure ClickParams where
  freq : ℚ
  gain : ℚ
deriving DecidableEq

/-- App.tsx `playClickSound`: 800 Hz / 0.3 gain for a downbeat, 600 Hz / 0.2
for a regular beat, 400 Hz / 0.1 for a subdivision-only tick. -/
def playClickSound (is_downbeat : Bool) (is_beat : Bool) : ClickParams :=
  if is_downbeat then { freq := 800, gain := 3/10 }
  else if is_beat then { freq := 600, gain := 2/10 }
  else { freq := 400, gain := 1/10 }

/-- The inbound messages the App-level `handleMessage` dispatches on; every
other frame falls under `other`. -/
inductive ServerMessage where
  | metronome_state (is_playing : Bool) (current_beat : Nat)
      (current_subdivision : Nat)
  | metronome_tick (beat : Nat) (subdivision : Nat) (is_downbeat : Bool)
      (is_beat : Bool)
  | other

/-- App.tsx `handleMessage`: a `metronome_state` snapshot replaces the local
playing/beat/subdivision state; a `metronome_tick` updates beat/subdivision
and triggers one click whose envelope is chosen by the tick kind. -/
def handleMessage (a : AppState) : ServerMessage → AppState × Option ClickParams
  | ServerMessage.metronome_state p b sd =>
      ({ a with isMetronomePlaying := p, currentBeat := b,
                currentSubdivision := sd }, none)
  | ServerMessage.metronome_tick b sd down isb =>
      ({ a with currentBeat := b, currentSubdivision := sd },
       some (playClickSound down isb))
  | ServerMessage.other => (a, none)

/-! ### Feedback derivation (App.tsx, hit-history rendering) -/

/-- App.tsx: `Math.floor(hit.slot_idx / (selectedDrill?.subdivision || 4)) + 1`;
the JavaScript `||` falls back to 4 on a missing or zero subdivision. -/
def hitBeat (slot_idx : Nat) (subdivision : Nat) : Nat :=
  slot_idx / (if subdivision = 0 then 4 else subdivision) + 1

/-- App.tsx: `(hit.slot_idx % (selectedDrill?.subdivision || 4)) + 1`. -/
def hitSubdivisionInBeat (slot_idx : Nat) (subdivision : Nat) : Nat :=
  slot_idx % (if subdivision = 0 then 4 else subdivision) + 1

/-- App.tsx `timingQuality`: the per-hit timing bucket. -/
def timingQuality (timing_score : ℚ) : String :=
  if timing_score ≥ 9/10 then "Perfect"
  else if timing_score ≥ 7/10 then "Good"
  else if timing_score ≥ 1/2 then "OK"
  else "Poor"

/-- App.tsx `dynamicsQuality`: the per-hit dynamics bucket (same fixed
thresholds). -/
def dynamicsQuality (dyn_score : ℚ) : String :=
  if dyn_score ≥ 9/10 then "Perfect"
  else if dyn_score ≥ 7/10 then "Good"
  else if dyn_score ≥ 1/2 then "OK"
  else "Poor"

/-- App.tsx `overallQuality`: the mean of the two per-hit scores. -/
def overallQuality (timing_score dyn_score : ℚ) : ℚ :=
  (timing_score + dyn_score) / 2

/-- App.tsx `qualityClass`: the bucket of the overall average (the rendered
badge uses the same thresholds with capitalised labels). -/
def qualityClass (timing_score dyn_score : ℚ) : String :=
  if overallQuality timing_score dyn_score ≥ 9/10 then "perfect"
  else if overallQuality timing_score dyn_score ≥ 7/10 then "good"
  else if overallQuality timing_score dyn_score ≥ 1/2 then "ok"
  else "poor"

/-! ### Concrete fixtures used by closed statements -/

/-- A concrete drill (values shaped like the catalog's entries). -/
def demoDrill : Drill where
  id := "d1"
  name := "Single Stroke"
  tempo_bpm := 120
  subdivision := 4
  beats_per_bar := 4
  bars := 2

/-- A concrete created session. -/
def demoSession : Session where
  id := "s1"
  drill_id := "d1"
  input_type := InputType.midi
  status := SessionStatus.active

/-- A store state with a created session and a connected, open socket. -/
def demoConnectedStore : StoreState where
  drills := [demoDrill]
  selectedDrill := some demoDrill
  currentSession := some demoSession
  sessionId := some "s1"
  ws := some ⟨0, WSReadyState.OPEN⟩
  isConnected := true
  hitHistory := []
  currentRolling := none
  isCountdownActive := false

/-- The App component state over `demoConnectedStore`, with the tempo panel
open. -/
def demoConnectedApp : AppState where
  store := demoConnectedStore
  isMetronomePlaying := false
  currentBeat := 0
  currentSubdivision := 0
  customTempoBpm := none
  showTempoCustomization := true

/-- `createSession`'s failure cases named by the claim: a network fault or a
non-2xx (not ok) response. -/
def createSessionFails (r : FetchResult) : Prop :=
  r = FetchResult.netFault ∨ ∃ body, r = FetchResult.resp false body

/-- The race the code permits: two rapid session starts (create + connect
twice) before either handshake completes, then both handshakes complete.
The second `connectWebSocket` finds `ws = null` (socket 0 is not yet
recorded by `onopen`), so it closes nothing. -/
def raceTrace : List ClientEvent :=
  [ClientEvent.createResp (FetchResult.resp true (some demoSession)),
   ClientEvent.connectCall,
   ClientEvent.createResp (FetchResult.resp true (some demoSession)),
   ClientEvent.connectCall,
   ClientEvent.openCb 0,
   ClientEvent.openCb 1]

/-! ### Helper lemmas -/

/-- `createSession` never touches the socket field. -/
theorem createSession_ws (s : StoreState) (r : FetchResult) :
    (createSession s r).1.ws = s.ws := by
  cases r with
  | netFault => rfl
  | resp ok body => cases ok <;> cases body <;> rfl

/-- `addHitFeedback` never touches the socket field. -/
theorem addHitFeedback_ws (s : StoreState) (f : HitFeedback) :
    (addHitFeedback s f).ws = s.ws := by
  cases h : s.isCountdownActive <;> simp [addHitFeedback, h]

/-- Mapping a sockId-preserving function over a socket list preserves the
identity list. -/
theorem map_sockId_eq (f : Socket → Socket)
    (hf : ∀ p, (f p).sockId = p.sockId) :
    ∀ l : List Socket, (l.map f).map Socket.sockId = l.map Socket.sockId := by
  intro l
  induction l with
  | nil => rfl
  | cons a l ih => simp [hf, ih]

/-- `closeSocket` does not change socket identities. -/
theorem closeSocket_ids (l : List Socket) (c : Nat) :
    (closeSocket l c).map Socket.sockId = l.map Socket.sockId := by
  simp only [closeSocket]
  exact map_sockId_eq _
    (fun p => by
      by_cases h : p.sockId = c ∧ p.sockState ≠ WSReadyState.CLOSED <;>
        simp [h]) l

/-- `setSocketOpen` does not change socket identities. -/
theorem setSocketOpen_ids (l : List Socket) (c : Nat) :
    (setSocketOpen l c).map Socket.sockId = l.map Socket.sockId := by
  simp only [setSocketOpen]
  exact map_sockId_eq _
    (fun p => by by_cases h : p.sockId = c <;> simp [h]) l

/-- `clearClosePending` does not change socket identities. -/
theorem clearClosePending_ids (l : List Socket) (c : Nat) :
    (clearClosePending l c).map Socket.sockId = l.map Socket.sockId := by
  simp only [clearClosePending]
  exact map_sockId_eq _
    (fun p => by by_cases h : p.sockId = c <;> simp [h]) l

/-- A member of a mapped socket list has the identity of a member of the
original, when the map preserves identities. -/
theorem mem_map_sockId_eq (f : Socket → Socket)
    (hf : ∀ p, (f p).sockId = p.sockId) (l : List Socket) (p' : Socket)
    (hp' : p' ∈ l.map f) : ∃ p ∈ l, p'.sockId = p.sockId := by
  rw [List.mem_map] at hp'
  obtain ⟨p, hp, hEq⟩ := hp'
  exact ⟨p, hp, by rw [← hEq, hf]⟩

/-- A filter whose positives all share one identity keeps at most one
element of an identity-distinct list. -/
theorem length_filter_le_one_of_const_id (q : Socket → Bool) (k : Nat) :
    ∀ l : List Socket, (l.map Socket.sockId).Nodup →
      (∀ p ∈ l, q p = true → p.sockId = k) →
      (l.filter q).length ≤ 1 := by
  intro l
  induction l with
  | nil => intro _ _; simp
  | cons a l ih =>
      intro hnd hk
      rw [List.map_cons, List.nodup_cons] at hnd
      by_cases ha : q a = true
      · have hnil : l.filter q = [] := by
          rw [List.filter_eq_nil_iff]
          intro p hp hqp
          have h1 : p.sockId = k := hk p (List.mem_cons_of_mem a hp) hqp
          have h2 : a.sockId = k := hk a (List.mem_cons_self a l) ha
          have h3 : a.sockId ∈ l.map Socket.sockId := by
            rw [h2, ← h1]
            exact List.mem_map_of_mem Socket.sockId hp
          exact absurd h3 hnd.1
        rw [List.filter_cons, if_pos ha, hnil]
        simp
      · rw [List.filter_cons, if_neg ha]
        exact ih hnd.2 (fun p hp hqp => hk p (List.mem_cons_of_mem a hp) hqp)

/-- The inductive invariant tying the socket world to the store under the
`okRun` discipline: every open socket is the one the store records; while a
socket is mid-handshake or a close callback is outstanding the store records
nothing; socket identities are fresh and distinct; and only the most
recently created socket can be mid-handshake. -/
structure ChanInv (w : ChannelWorld) : Prop where
  openRecorded : ∀ p ∈ w.sockets, p.sockState = WSReadyState.OPEN →
      w.store.ws = some ⟨p.sockId, WSReadyState.OPEN⟩
  connectingUnrecorded : ∀ p ∈ w.sockets,
      p.sockState = WSReadyState.CONNECTING → w.store.ws = none
  pendingUnrecorded : ∀ p ∈ w.sockets, p.closeCbPending = true →
      w.store.ws = none
  idsBelow : ∀ p ∈ w.sockets, p.sockId < w.nextId
  idsNodup : (w.sockets.map Socket.sockId).Nodup
  connectingLatest : ∀ p ∈ w.sockets,
      p.sockState = WSReadyState.CONNECTING → p.sockId = w.nextId - 1

/-- A store change that keeps the `ws` field keeps the invariant. -/
theorem chanInv_store_congr (w : ChannelWorld) (s' : StoreState)
    (hws : s'.ws = w.store.ws) (hw : ChanInv w) :
    ChanInv { w with store := s' } := by
  refine ⟨?_, ?_, ?_, hw.idsBelow, hw.idsNodup, hw.connectingLatest⟩
  · intro p hp ho
    show s'.ws = _
    rw [hws]
    exact hw.openRecorded p hp ho
  · intro p hp hc
    show s'.ws = none
    rw [hws]
    exact hw.connectingUnrecorded p hp hc
  · intro p hp hc
    show s'.ws = none
    rw [hws]
    exact hw.pendingUnrecorded p hp hc

/-- After a disconnect no socket is open: the recorded one was just closed,
and by the invariant no other one was open. -/
theorem worldDisconnect_no_open (w : ChannelWorld) (hw : ChanInv w) :
    ∀ p ∈ (worldDisconnect w).sockets, p.sockState ≠ WSReadyState.OPEN := by
  intro p' hp'
  cases hws : w.store.ws with
  | none =>
      simp only [worldDisconnect, hws] at hp'
      intro ho
      have h1 := hw.openRecorded p' hp' ho
      rw [hws] at h1
      exact absurd h1 (by simp)
  | some s =>
      simp only [worldDisconnect, hws, closeSocket, List.mem_map] at hp'
      obtain ⟨p, hp, hEq⟩ := hp'
      subst hEq
      by_cases hc : p.sockId = s.chanId ∧ p.sockState ≠ WSReadyState.CLOSED
      · rw [if_pos hc]
        simp
      · rw [if_neg hc]
        intro ho
        have h1 := hw.openRecorded p hp ho
        rw [hws] at h1
        apply hc
        injection h1 with h2
        constructor
        · exact (congrArg WS.chanId h2).symm
        · rw [ho]
          decide

/-- `worldDisconnect` does not change socket identities. -/
theorem worldDisconnect_ids (w : ChannelWorld) :
    (worldDisconnect w).sockets.map Socket.sockId
      = w.sockets.map Socket.sockId := by
  cases hws : w.store.ws with
  | none => simp only [worldDisconnect, hws]
  | some s =>
      simp only [worldDisconnect, hws]
      exact closeSocket_ids _ _

/-- Every socket after a disconnect carries the identity of one before. -/
theorem worldDisconnect_mem_sockId (w : ChannelWorld) (p' : Socket)
    (hp' : p' ∈ (worldDisconnect w).sockets) :
    ∃ p ∈ w.sockets, p'.sockId = p.sockId := by
  cases hws : w.store.ws with
  | none =>
      simp only [worldDisconnect, hws] at hp'
      exact ⟨p', hp', rfl⟩
  | some s =>
      simp only [worldDisconnect, hws, closeSocket] at hp'
      exact mem_map_sockId_eq _
        (fun p => by
          by_cases h : p.sockId = s.chanId ∧ p.sockState ≠ WSReadyState.CLOSED <;>
            simp [h]) _ _ hp'

/-- A socket still mid-handshake after a disconnect was mid-handshake before
it, with the same identity (a disconnect only ever closes sockets). -/
theorem worldDisconnect_connecting (w : ChannelWorld) (p' : Socket)
    (hp' : p' ∈ (worldDisconnect w).sockets)
    (hc : p'.sockState = WSReadyState.CONNECTING) :
    ∃ p ∈ w.sockets, p.sockState = WSReadyState.CONNECTING ∧
      p.sockId = p'.sockId := by
  cases hws : w.store.ws with
  | none =>
      simp only [worldDisconnect, hws] at hp'
      exact ⟨p', hp', hc, rfl⟩
  | some s =>
      simp only [worldDisconnect, hws, closeSocket, List.mem_map] at hp'
      obtain ⟨p, hp, hEq⟩ := hp'
      subst hEq
      by_cases h : p.sockId = s.chanId ∧ p.sockState ≠ WSReadyState.CLOSED
      · rw [if_pos h] at hc
        simp at hc
      · rw [if_neg h] at hc ⊢
        exact ⟨p, hp, hc, rfl⟩

/-- `worldDisconnect` preserves the invariant. -/
theorem worldDisconnect_inv (w : ChannelWorld) (hw : ChanInv w) :
    ChanInv (worldDisconnect w) := by
  refine ⟨?_, fun p hp hc => rfl, fun p hp hc => rfl, ?_, ?_, ?_⟩
  · intro p hp ho
    exact absurd ho (worldDisconnect_no_open w hw p hp)
  · intro p hp
    obtain ⟨q, hq, hid⟩ := worldDisconnect_mem_sockId w p hp
    rw [hid]
    exact hw.idsBelow q hq
  · rw [worldDisconnect_ids]
    exact hw.idsNodup
  · intro p hp hc
    obtain ⟨q, hq, hqc, hid⟩ := worldDisconnect_connecting w p hp hc
    rw [← hid]
    exact hw.connectingLatest q hq hqc

/-- One client event preserves the invariant whenever it respects the
interleaving discipline. -/
theorem clientStep_inv (w : ChannelWorld) (e : ClientEvent)
    (hw : ChanInv w) (hok : stepOK w e) : ChanInv (clientStep w e) := by
  cases e with
  | createResp r =>
      exact chanInv_store_congr w _ (createSession_ws w.store r) hw
  | hit f =>
      exact chanInv_store_congr w _ (addHitFeedback_ws w.store f) hw
  | countdown b =>
      exact chanInv_store_congr w _ rfl hw
  | disconnectCall =>
      exact worldDisconnect_inv w hw
  | clearCall =>
      have h := worldDisconnect_inv w hw
      exact chanInv_store_congr (worldDisconnect w) _ rfl h
  | connectCall =>
      have hok' : quiescentHandshake w := hok
      refine ⟨?_, fun p hp hc => rfl, fun p hp hc => rfl, ?_, ?_, ?_⟩
      · intro p hp ho
        rcases List.mem_append.mp hp with h | h
        · exact absurd ho (worldDisconnect_no_open w hw p h)
        · rw [List.mem_singleton] at h
          subst h
          simp at ho
      · intro p hp
        rcases List.mem_append.mp hp with h | h
        · obtain ⟨q, hq, hid⟩ := worldDisconnect_mem_sockId w p h
          have := hw.idsBelow q hq
          show p.sockId < w.nextId + 1
          omega
        · rw [List.mem_singleton] at h
          subst h
          show w.nextId < w.nextId + 1
          omega
      · show ((worldDisconnect w).sockets ++ _).map Socket.sockId |>.Nodup
        rw [List.map_append, worldDisconnect_ids]
        have hnotin : w.nextId ∉ w.sockets.map Socket.sockId := by
          intro hmem
          rw [List.mem_map] at hmem
          obtain ⟨p, hp, hEq⟩ := hmem
          have := hw.idsBelow p hp
          omega
        simp [List.nodup_append, hw.idsNodup]
        intro x hx h
        exact hnotin (h ▸ List.mem_map_of_mem Socket.sockId hx)
      · intro p hp hc
        rcases List.mem_append.mp hp with h | h
        · obtain ⟨q, hq, hqc, _⟩ := worldDisconnect_connecting w p h hc
          exact absurd hqc (hok' q hq)
        · rw [List.mem_singleton] at h
          subst h
          show w.nextId = w.nextId + 1 - 1
          omega
  | openCb c =>
      cases hf : w.sockets.find? (fun p => p.sockId == c) with
      | none =>
          show ChanInv (wsOnOpen w c)
          simp only [wsOnOpen, hf]
          exact hw
      | some p₀ =>
          by_cases hcp : p₀.sockState = WSReadyState.CONNECTING
          · have hp₀mem : p₀ ∈ w.sockets := List.mem_of_find?_eq_some hf
            have hp₀id : p₀.sockId = c := by
              have := List.find?_some hf
              simpa using this
            have hwnone : w.store.ws = none :=
              hw.connectingUnrecorded p₀ hp₀mem hcp
            have hlatest : c = w.nextId - 1 := by
              rw [← hp₀id]
              exact hw.connectingLatest p₀ hp₀mem hcp
            have hnopen : ∀ p ∈ w.sockets, p.sockState ≠ WSReadyState.OPEN := by
              intro p hp ho
              have h1 := hw.openRecorded p hp ho
              rw [hwnone] at h1
              exact absurd h1 (by simp)
            have hnopending : noPendingCloseCb w := hok
            show ChanInv (wsOnOpen w c)
            simp only [wsOnOpen, hf, if_pos hcp]
            refine ⟨?_, ?_, ?_, ?_, ?_, ?_⟩
            · intro p' hp' ho
              simp only [setSocketOpen, List.mem_map] at hp'
              obtain ⟨p, hp, hEq⟩ := hp'
              subst hEq
              by_cases h : p.sockId = c
              · show some _ = some _
                rw [if_pos h] at ho ⊢
                show some (WS.mk c WSReadyState.OPEN)
                  = some (WS.mk p.sockId WSReadyState.OPEN)
                rw [h]
              · rw [if_neg h] at ho
                exact absurd ho (hnopen p hp)
            · intro p' hp' hc'
              simp only [setSocketOpen, List.mem_map] at hp'
              obtain ⟨p, hp, hEq⟩ := hp'
              subst hEq
              by_cases h : p.sockId = c
              · rw [if_pos h] at hc'
                simp at hc'
              · rw [if_neg h] at hc'
                have := hw.connectingLatest p hp hc'
                rw [← hlatest] at this
                exact absurd this h
            · intro p' hp' hpend
              simp only [setSocketOpen, List.mem_map] at hp'
              obtain ⟨p, hp, hEq⟩ := hp'
              subst hEq
              by_cases h : p.sockId = c
              · rw [if_pos h] at hpend
                simp [hnopending p hp] at hpend
              · rw [if_neg h] at hpend
                simp [hnopending p hp] at hpend
            · intro p' hp'
              obtain ⟨q, hq, hid⟩ := mem_map_sockId_eq _
                (fun p => by by_cases h : p.sockId = c <;> simp [h])
                _ _ hp'
              rw [hid]
              exact hw.idsBelow q hq
            · show ((setSocketOpen w.sockets c).map Socket.sockId).Nodup
              rw [setSocketOpen_ids]
              exact hw.idsNodup
            · intro p' hp' hc'
              simp only [setSocketOpen, List.mem_map] at hp'
              obtain ⟨p, hp, hEq⟩ := hp'
              subst hEq
              by_cases h : p.sockId = c
              · rw [if_pos h] at hc'
                simp at hc'
              · rw [if_neg h] at hc'
                have := hw.connectingLatest p hp hc'
                rw [← hlatest] at this
                exact absurd this h
          · show ChanInv (wsOnOpen w c)
            simp only [wsOnOpen, hf, if_neg hcp]
            exact hw
  | closeCb c =>
      cases hf : w.sockets.find? (fun p => p.sockId == c) with
      | none =>
          show ChanInv (wsOnClose w c)
          simp only [wsOnClose, hf]
          exact hw
      | some p₀ =>
          by_cases hcp : p₀.closeCbPending = true
          · have hp₀mem : p₀ ∈ w.sockets := List.mem_of_find?_eq_some hf
            have hwnone : w.store.ws = none :=
              hw.pendingUnrecorded p₀ hp₀mem hcp
            have hnopen : ∀ p ∈ w.sockets, p.sockState ≠ WSReadyState.OPEN := by
              intro p hp ho
              have h1 := hw.openRecorded p hp ho
              rw [hwnone] at h1
              exact absurd h1 (by simp)
            show ChanInv (wsOnClose w c)
            simp only [wsOnClose, hf, if_pos hcp]
            refine ⟨?_, fun p hp hc => rfl, fun p hp hc => rfl, ?_, ?_, ?_⟩
            · intro p' hp' ho
              simp only [clearClosePending, List.mem_map] at hp'
              obtain ⟨p, hp, hEq⟩ := hp'
              subst hEq
              by_cases h : p.sockId = c
              · rw [if_pos h] at ho
                exact absurd ho (hnopen p hp)
              · rw [if_neg h] at ho
                exact absurd ho (hnopen p hp)
            · intro p' hp'
              obtain ⟨q, hq, hid⟩ := mem_map_sockId_eq _
                (fun p => by by_cases h : p.sockId = c <;> simp [h])
                _ _ hp'
              rw [hid]
              exact hw.idsBelow q hq
            · show ((clearClosePending w.sockets c).map Socket.sockId).Nodup
              rw [clearClosePending_ids]
              exact hw.idsNodup
            · intro p' hp' hc'
              simp only [clearClosePending, List.mem_map] at hp'
              obtain ⟨p, hp, hEq⟩ := hp'
              subst hEq
              by_cases h : p.sockId = c
              · rw [if_pos h] at hc' ⊢
                exact hw.connectingLatest p hp hc'
              · rw [if_neg h] at hc' ⊢
                exact hw.connectingLatest p hp hc'
          · show ChanInv (wsOnClose w c)
            simp only [wsOnClose, hf, if_neg hcp]
            exact hw

/-- The invariant holds along every disciplined run. -/
theorem runClient_inv : ∀ (tr : List ClientEvent) (w : ChannelWorld),
    ChanInv w → okRun w tr → ChanInv (runClient w tr) := by
  intro tr
  induction tr with
  | nil => intro w h _; exact h
  | cons e rest ih =>
      intro w h hok
      exact ih _ (clientStep_inv w e h hok.1) hok.2

/-- The invariant bounds the number of open channels by one. -/
theorem chanInv_openCount (w : ChannelWorld) (h : ChanInv w) :
    openCount w ≤ 1 := by
  cases hws : w.store.ws with
  | none =>
      have hnil : w.sockets.filter
          (fun p => p.sockState == WSReadyState.OPEN) = [] := by
        rw [List.filter_eq_nil_iff]
        intro p hp hq
        have h1 := h.openRecorded p hp (by simpa using hq)
        rw [hws] at h1
        exact absurd h1 (by simp)
      rw [openCount, hnil]
      simp
  | some s =>
      rw [openCount]
      apply length_filter_le_one_of_const_id _ s.chanId _ h.idsNodup
      intro p hp hq
      have h2 := h.openRecorded p hp (by simpa using hq)
      rw [hws] at h2
      injection h2 with h3
      exact (congrArg WS.chanId h3).symm

/-! ### The claims -/

/-- Claim C1 — the code violates it.  Evaluation at the failing input: with a
created session, a connected open socket and the tempo input changed to 500
(the element's min/max attributes do not constrain what `parseInt` receives
from a typed value, and `handleUpdateMetronomeTempo` forwards
`customTempoBpm` without clamping), an `update_tempo` frame is sent carrying
500 BPM, which is outside [40, 300]. -/
theorem claim_C1 :
    (handleUpdateMetronomeTempo (tempoInputChange demoConnectedApp (some 500)) 0).2
      = some { t := 0, metronome_action := MetroAction.update_tempo,
               custom_tempo_bpm := some (some 500) } ∧
    ¬ (40 ≤ (500 : Int) ∧ (500 : Int) ≤ 300) := by
  exact ⟨rfl, by decide⟩

/-- Claim C2: when the session-creation request faults at the network level
or returns a non-2xx response, `createSession` propagates an error and
returns the store state exactly as it was — no partial state is committed. -/
theorem claim_C2 (s : StoreState) (r : FetchResult)
    (h : createSessionFails r) :
    (createSession s r).1 = s ∧ (createSession s r).2 = Except.error () := by
  rcases h with h | ⟨body, h⟩ <;> subst h <;> exact ⟨rfl, rfl⟩

/-- Witness for C2: an HTTP-rejected call against a store that already holds
a session leaves that state byte-for-byte unchanged. -/
theorem claim_C2_w :
    (createSession demoConnectedStore (FetchResult.resp false none)).1
        = demoConnectedStore ∧
    (createSession demoConnectedStore (FetchResult.resp false none)).2
        = Except.error () :=
  claim_C2 demoConnectedStore (FetchResult.resp false none)
    (Or.inr ⟨none, rfl⟩)

/-- Claim C3 — counterexample.  `connectWebSocket` commits nothing to the
store (only the later `onopen` callback does), so on the concrete trace
"start session twice quickly, then both handshakes complete" the second
connect finds `ws = null` and closes nothing: afterwards sockets 0 and 1 are
both OPEN at once, refuting "no two channels ever coexist for the same
store". -/
theorem claim_C3_cex :
    (runClient initialWorld raceTrace).sockets =
      [{ sockId := 0, sockState := WSReadyState.OPEN,
         closeCbPending := false },
       { sockId := 1, sockState := WSReadyState.OPEN,
         closeCbPending := false }] ∧
    openCount (runClient initialWorld raceTrace) = 2 ∧
    ¬ openCount (runClient initialWorld raceTrace) ≤ 1 :=
  ⟨rfl, rfl, by decide⟩

/-- Claim C3 as amended: (1) connecting tears down only the channel the
store currently records — that channel's close is applied before the new
socket is created, and the connect itself records nothing (`ws` is null and
`isConnected` false until `onopen`); (2) at most one channel is open at any
time provided no connect is issued while a handshake is still pending and
close callbacks are delivered before a later open completes (`okRun`); the
counterexample shows the unconditional claim fails exactly when a connect
overlaps a pending handshake. -/
theorem claim_C3 :
    (∀ (w : ChannelWorld) (s : WS), w.store.ws = some s →
        (connectWebSocket w).sockets
          = closeSocket w.sockets s.chanId
              ++ [{ sockId := w.nextId, sockState := WSReadyState.CONNECTING,
                    closeCbPending := false }] ∧
        (connectWebSocket w).store.ws = none ∧
        (connectWebSocket w).store.isConnected = false ∧
        (connectWebSocket w).nextId = w.nextId + 1) ∧
    (∀ tr : List ClientEvent, okRun initialWorld tr →
        openCount (runClient initialWorld tr) ≤ 1) := by
  constructor
  · intro w s hws
    refine ⟨?_, rfl, rfl, rfl⟩
    show (worldDisconnect w).sockets ++ _ = _
    simp only [worldDisconnect, hws]
  · intro tr hok
    have hinit : ChanInv initialWorld := by
      refine ⟨?_, ?_, ?_, ?_, ?_, ?_⟩ <;> simp [initialWorld]
    exact chanInv_openCount _ (runClient_inv tr initialWorld hinit hok)

/-- Claim C4: when the countdown ignore window is inactive, `addHitFeedback`
appends the feedback at the end of the history and replaces the rolling score
wholesale; when the window is active the whole state is unchanged — the hit
is dropped, not buffered. -/
theorem claim_C4 (s : StoreState) (f : HitFeedback) :
    (s.isCountdownActive = false →
        (addHitFeedback s f).hitHistory = s.hitHistory ++ [f] ∧
        (addHitFeedback s f).currentRolling = some f.rolling) ∧
    (s.isCountdownActive = true → addHitFeedback s f = s) := by
  constructor <;> intro h <;> simp [addHitFeedback, h]

/-- Claim C5: after `clearSession` the history is empty, the rolling score,
session and session id are null, the socket is released, and the channel
events emitted are exactly those of the disconnect it performs first. -/
theorem claim_C5 (s : StoreState) :
    (clearSession s).1.hitHistory = [] ∧
    (clearSession s).1.currentRolling = none ∧
    (clearSession s).1.currentSession = none ∧
    (clearSession s).1.sessionId = none ∧
    (clearSession s).1.ws = none ∧
    (clearSession s).1.isConnected = false ∧
    (clearSession s).2 = (disconnectWebSocket s).2 :=
  ⟨rfl, rfl, rfl, rfl, rfl, rfl, rfl⟩

/-- Claim C6: every keyboard hit and every metronome control command is sent
only when a session is active, the status is connected and the socket is
open; when the session/connection guard fails, every handler sends nothing
and leaves the component state unchanged (nothing is buffered); and the
device handler as registered by the app (whose closure captured the
disconnected mount-time state) never sends. -/
theorem claim_C6 (a : AppState) (now : ℚ) (code : String)
    (d : MIDIMessageData) :
    (∀ e : HitEvent, handleKeyboardMidi a now code = some e →
        a.store.currentSession.isSome = true ∧ a.store.isConnected = true ∧
        wsOpen a.store = true) ∧
    (∀ f : MetronomeControlFrame, handleStartMetronome a now = some f →
        a.store.currentSession.isSome = true ∧ a.store.isConnected = true ∧
        wsOpen a.store = true) ∧
    (∀ f : MetronomeControlFrame, handleStopMetronome a now = some f →
        a.store.currentSession.isSome = true ∧ a.store.isConnected = true ∧
        wsOpen a.store = true) ∧
    (∀ f : MetronomeControlFrame, handleResetMetronome a now = some f →
        a.store.currentSession.isSome = true ∧ a.store.isConnected = true ∧
        wsOpen a.store = true) ∧
    (∀ f : MetronomeControlFrame,
        (handleUpdateMetronomeTempo a now).2 = some f →
        a.store.currentSession.isSome = true ∧ a.store.isConnected = true ∧
        wsOpen a.store = true) ∧
    (a.store.currentSession.isSome = false ∨ a.store.isConnected = false →
        handleKeyboardMidi a now code = none ∧
        handleStartMetronome a now = none ∧
        handleStopMetronome a now = none ∧
        handleResetMetronome a now = none ∧
        handleUpdateMetronomeTempo a now = (a, none)) ∧
    (∀ (capturedSession : Option Session) (t2 : ℚ),
        deviceMidiHandler false capturedSession a.store.ws t2 d = none) := by
  have hdev : ∀ (capturedSession : Option Session) (t2 : ℚ),
      deviceMidiHandler false capturedSession a.store.ws t2 d = none := by
    intro capturedSession t2
    unfold deviceMidiHandler
    split <;> simp
  cases hs : a.store.currentSession with
  | none =>
      refine ⟨?_, ?_, ?_, ?_, ?_, ?_, hdev⟩ <;>
        simp [handleKeyboardMidi, handleStartMetronome, handleStopMetronome,
              handleResetMetronome, handleUpdateMetronomeTempo, hs]
  | some sess =>
      cases hb : a.store.isConnected with
      | false =>
          refine ⟨?_, ?_, ?_, ?_, ?_, ?_, hdev⟩ <;>
            simp [handleKeyboardMidi, handleStartMetronome, handleStopMetronome,
                  handleResetMetronome, handleUpdateMetronomeTempo, hs, hb]
      | true =>
          cases hw : wsOpen a.store with
          | false =>
              refine ⟨?_, ?_, ?_, ?_, ?_, ?_, hdev⟩ <;>
                simp [handleKeyboardMidi, handleStartMetronome,
                      handleStopMetronome, handleResetMetronome,
                      handleUpdateMetronomeTempo, hs, hb, hw]
              intro e
              cases hm : keyboardMidiMap code <;> simp [hm]
          | true =>
              refine ⟨?_, ?_, ?_, ?_, ?_, ?_, hdev⟩ <;>
                simp [handleKeyboardMidi, handleStartMetronome,
                      handleStopMetronome, handleResetMetronome,
                      handleUpdateMetronomeTempo, hs, hb, hw]

/-- Claim C7: the per-hit quality bucket — for the timing score and for the
overall (timing+dyn)/2 average alike — is Perfect at ≥ 0.9, Good at ≥ 0.7,
OK at ≥ 0.5 and Poor below, with the fixed constants inclusive on the high
side: exactly 0.9 is Perfect and 0.89999 is Good. -/
theorem claim_C7 (x timing_score dyn_score : ℚ) :
    (x ≥ 9/10 → timingQuality x = "Perfect") ∧
    (x < 9/10 → x ≥ 7/10 → timingQuality x = "Good") ∧
    (x < 7/10 → x ≥ 1/2 → timingQuality x = "OK") ∧
    (x < 1/2 → timingQuality x = "Poor") ∧
    (overallQuality timing_score dyn_score ≥ 9/10 →
        qualityClass timing_score dyn_score = "perfect") ∧
    (overallQuality timing_score dyn_score < 9/10 →
        overallQuality timing_score dyn_score ≥ 7/10 →
        qualityClass timing_score dyn_score = "good") ∧
    (overallQuality timing_score dyn_score < 7/10 →
        overallQuality timing_score dyn_score ≥ 1/2 →
        qualityClass timing_score dyn_score = "ok") ∧
    (overallQuality timing_score dyn_score < 1/2 →
        qualityClass timing_score dyn_score = "poor") ∧
    timingQuality (9/10) = "Perfect" ∧
    timingQuality (89999/100000) = "Good" := by
  refine ⟨?_, ?_, ?_, ?_, ?_, ?_, ?_, ?_, ?_, ?_⟩
  · intro h
    rw [timingQuality, if_pos h]
  · intro h1 h2
    rw [timingQuality, if_neg (not_le.mpr h1), if_pos h2]
  · intro h1 h2
    rw [timingQuality, if_neg (not_le.mpr (h1.trans (by norm_num))),
        if_neg (not_le.mpr h1), if_pos h2]
  · intro h1
    rw [timingQuality, if_neg (not_le.mpr (h1.trans (by norm_num))),
        if_neg (not_le.mpr (h1.trans (by norm_num))),
        if_neg (not_le.mpr h1)]
  · intro h
    rw [qualityClass, if_pos h]
  · intro h1 h2
    rw [qualityClass, if_neg (not_le.mpr h1), if_pos h2]
  · intro h1 h2
    rw [qualityClass, if_neg (not_le.mpr (h1.trans (by norm_num))),
        if_neg (not_le.mpr h1), if_pos h2]
  · intro h1
    rw [qualityClass, if_neg (not_le.mpr (h1.trans (by norm_num))),
        if_neg (not_le.mpr (h1.trans (by norm_num))),
        if_neg (not_le.mpr h1)]
  · rw [timingQuality, if_pos le_rfl]
  · rw [timingQuality, if_neg (by norm_num), if_pos (by norm_num)]

/-- Claim C8: for a positive subdivision d the derived beat is
floor(slot_idx / d) + 1 and the derived subdivision-in-beat is
(slot_idx mod d) + 1; in particular slot 37 at subdivision 4 gives beat 10,
subdivision 2, and timing 0.86 / dynamics 0.78 give overall 0.82, bucket
"good". -/
theorem claim_C8 (slot_idx subdivision : Nat) (h : subdivision ≠ 0) :
    (hitBeat slot_idx subdivision = slot_idx / subdivision + 1 ∧
     hitSubdivisionInBeat slot_idx subdivision = slot_idx % subdivision + 1) ∧
    (hitBeat 37 4 = 10 ∧ hitSubdivisionInBeat 37 4 = 2 ∧
     overallQuality (86/100) (78/100) = 82/100 ∧
     qualityClass (86/100) (78/100) = "good") := by
  refine ⟨⟨?_, ?_⟩, by decide, by decide, ?_, ?_⟩
  · simp [hitBeat, h]
  · simp [hitSubdivisionInBeat, h]
  · norm_num [overallQuality]
  · rw [qualityClass, if_neg (by norm_num [overallQuality]),
        if_pos (by norm_num [overallQuality])]

/-- Witness for C8: the theorem applied at slot 37, subdivision 4 (the
scenario input), its hypothesis discharged concretely. -/
theorem claim_C8_w :
    hitBeat 37 4 = 10 ∧ hitSubdivisionInBeat 37 4 = 2 ∧
    overallQuality (86/100) (78/100) = 82/100 ∧
    qualityClass (86/100) (78/100) = "good" :=
  (claim_C8 37 4 (by decide)).2

/-- Claim C9: a `metronome_tick` message sets the local phase to the tick's
(beat, subdivision) and triggers a click whose envelope is chosen by the tick
kind, with downbeat > beat > subdivision strictly in both pitch and gain; the
spec's two-tick scenario ends in phase (2,1) with the lowest-prominence
click. -/
theorem claim_C9 (a : AppState) (beat subdivision : Nat)
    (is_downbeat is_beat : Bool) :
    ((handleMessage a
        (ServerMessage.metronome_tick beat subdivision is_downbeat is_beat)).1.currentBeat
          = beat ∧
     (handleMessage a
        (ServerMessage.metronome_tick beat subdivision is_downbeat is_beat)).1.currentSubdivision
          = subdivision ∧
     (handleMessage a
        (ServerMessage.metronome_tick beat subdivision is_downbeat is_beat)).2
          = some (playClickSound is_downbeat is_beat)) ∧
    ((playClickSound true is_beat).freq > (playClickSound false true).freq ∧
     (playClickSound false true).freq > (playClickSound false false).freq ∧
     (playClickSound true is_beat).gain > (playClickSound false true).gain ∧
     (playClickSound false true).gain > (playClickSound false false).gain) ∧
    ((handleMessage
        (handleMessage a (ServerMessage.metronome_tick 2 0 true true)).1
        (ServerMessage.metronome_tick 2 1 false false)).1.currentBeat = 2 ∧
     (handleMessage
        (handleMessage a (ServerMessage.metronome_tick 2 0 true true)).1
        (ServerMessage.metronome_tick 2 1 false false)).1.currentSubdivision = 1 ∧
     (handleMessage
        (handleMessage a (ServerMessage.metronome_tick 2 0 true true)).1
        (ServerMessage.metronome_tick 2 1 false false)).2
          = some { freq := 400, gain := 1/10 }) := by
  refine ⟨⟨rfl, rfl, rfl⟩, ⟨?_, ?_, ?_, ?_⟩, ⟨rfl, rfl, rfl⟩⟩
  · norm_num [playClickSound]
  · norm_num [playClickSound]
  · norm_num [playClickSound]
  · norm_num [playClickSound]

/-- Claim C10 (implicit): the device note-on handler gates on the
session/connection state captured when the one-shot MIDI setup ran — at
mount, where the store is disconnected with no session — so it never
forwards a hit, whatever the store's socket holds later; the keyboard
handler, re-registered on every connection-state change, does forward when a
session is connected. -/
theorem claim_C10 :
    (∀ (curWs : Option WS) (now : ℚ) (d : MIDIMessageData),
        deviceMidiHandler initialStoreState.isConnected
          initialStoreState.currentSession curWs now d = none) ∧
    (∀ (a : AppState) (now : ℚ),
        a.store.currentSession.isSome = true → a.store.isConnected = true →
        wsOpen a.store = true →
        handleKeyboardMidi a now "KeyA"
          = some { t := now, type := InputType.midi, note := 36,
                   velocity := 80 }) := by
  constructor
  · intro curWs now d
    unfold deviceMidiHandler
    split <;> simp [initialStoreState]
  · intro a now h1 h2 h3
    cases hs : a.store.currentSession with
    | none => rw [hs] at h1; cases h1
    | some sess =>
        simp [handleKeyboardMidi, keyboardMidiMap, hs, h2, h3]
